import Mathlib

/-!
Shallow embedding of the InNoHassle-Auth provider routes
(`src/modules/providers/{innopolis,telegram,email}/routes.py` and
`src/api/dependencies.py`) together with theorems settling the spec claims.

External collaborators (starlette URL parsing, authlib token exchange, the
user/email-flow repositories, hashlib/hmac) are passed in as function
parameters; the control flow of the route handlers themselves is translated
line by line from the Python source.
-/

/-- The exception classes raised by the embedded routes, one constructor per
Python exception class that the modelled code can raise. -/
inductive AuthException where
  | invalidReturnToURL
  | invalidTelegramWidgetHash
  | userWithoutSessionException
  | keyError (key : String)
deriving DecidableEq

/-- The browser session: the three string keys (`uid`, `redirect_uri`,
`prompt`) that the code reads and writes, each optional. -/
structure Session where
  uid : Option String
  redirect_uri : Option String
  prompt : Option String
deriving DecidableEq

/-- `request.session.clear()`: removes every key. -/
def Session.clear (_ : Session) : Session := ⟨none, none, none⟩

/-- `request.session.pop("redirect_uri")` with no default: returns the value
and removes the key, raising `KeyError` when the key is absent. -/
def Session.pop_redirect_uri (s : Session) : Except AuthException (String × Session) :=
  match s.redirect_uri with
  | none => .error (.keyError "redirect_uri")
  | some r => .ok (r, { s with redirect_uri := none })

/-- The responses the SSO routes produce: a `RedirectResponse(url, status_code)`
or a `JSONResponse(status_code, {"error": ..., "description": ...})`. -/
inductive Response where
  | redirect (url : String) (status_code : Nat)
  | jsonError (status_code : Nat) (error : String) (description : Option String)
deriving DecidableEq

/-- Python truthiness of an optional string (`if redirect_uri:` / `if error:`):
false for `None` and for the empty string. -/
def truthyOptStr : Option String → Bool
  | none => false
  | some s => s != ""

/-- Outcome of `starlette.datastructures.URL(...)` on a candidate string:
either a parsed URL exposing its optional `hostname`, or a malformed input
(the `AssertionError`/`ValueError` cases the code catches). The parser itself
is library code and enters the embedding as a parameter of this type. -/
inductive ParseResult where
  | parsed (hostname : Option String)
  | malformed
deriving DecidableEq

/-- `ensure_allowed_redirect_uri` (innopolis/routes.py lines 103-112): accept a
candidate with no hostname, accept a hostname on the allow-list, and raise
`InvalidReturnToURL` in every other case, malformed input included. -/
def ensure_allowed_redirect_uri (parseURL : String → ParseResult)
    (allowed_domains : List String) (return_to : String) : Except AuthException Unit :=
  match parseURL return_to with
  | .parsed none => .ok ()
  | .parsed (some h) =>
      if h ∈ allowed_domains then .ok () else .error .invalidReturnToURL
  | .malformed => .error .invalidReturnToURL

/-- C2: the Redirect Guard accepts exactly the candidates that parse with no
host or with an allow-listed host; every other candidate — foreign host or
malformed input — fails with the invalid-return-url error. -/
theorem ensure_allowed_redirect_uri_characterization
    (parseURL : String → ParseResult) (allowed_domains : List String)
    (return_to : String) :
    (ensure_allowed_redirect_uri parseURL allowed_domains return_to = .ok () ↔
      (parseURL return_to = .parsed none ∨
        ∃ h, parseURL return_to = .parsed (some h) ∧ h ∈ allowed_domains)) ∧
    (ensure_allowed_redirect_uri parseURL allowed_domains return_to = .ok () ∨
      ensure_allowed_redirect_uri parseURL allowed_domains return_to =
        .error .invalidReturnToURL) := by
  unfold ensure_allowed_redirect_uri
  constructor
  · constructor
    · intro hok
      cases hp : parseURL return_to with
      | parsed hn =>
          rw [hp] at hok
          cases hn with
          | none => exact Or.inl rfl
          | some h =>
              refine Or.inr ⟨h, rfl, ?_⟩
              by_contra hmem
              simp [hmem] at hok
      | malformed => rw [hp] at hok; simp at hok
    · intro hcases
      rcases hcases with hnone | ⟨h, hp, hmem⟩
      · rw [hnone]
      · rw [hp]; simp [hmem]
  · cases hp : parseURL return_to with
    | parsed hn =>
        cases hn with
        | none => exact Or.inl rfl
        | some h =>
            by_cases hmem : h ∈ allowed_domains
            · exact Or.inl (by simp [hmem])
            · exact Or.inr (by simp [hmem])
    | malformed => exact Or.inr rfl

/-- `TelegramWidgetData` (telegram widget payload): the fields the verifier
reads. `encoded` is the canonical encoded byte form of the signed fields (the
data-check-string built by the schema), `hash` the supplied hex signature,
`auth_date` the assertion timestamp, `id` the external Telegram subject id. -/
structure TelegramWidgetData where
  id : Nat
  auth_date : Int
  hash : String
  encoded : List Nat
deriving DecidableEq

/-- `_get_secret_key` (telegram/routes.py lines 18-21): the HMAC key is the
SHA-256 digest of the shared bot token; the digest itself is library code and
enters as the parameter `sha256`. -/
def _get_secret_key (sha256 : List Nat → List Nat) (bot_token : List Nat) : List Nat :=
  sha256 bot_token

/-- `validate_widget_hash` (telegram/routes.py lines 24-37): recompute
HMAC-SHA256 (hex digest, parameter `hmacSha256Hex`) over the payload's encoded
bytes keyed by `_get_secret_key`, and return the digest comparison only when
`now - 5*60 < auth_date < now + 5*60`; otherwise return false. -/
def validate_widget_hash (hmacSha256Hex : List Nat → List Nat → String)
    (sha256 : List Nat → List Nat) (bot_token : List Nat) (now : Int)
    (telegram_data : TelegramWidgetData) : Bool :=
  let received_hash := telegram_data.hash
  let evaluated_hash := hmacSha256Hex (_get_secret_key sha256 bot_token) telegram_data.encoded
  if now - 5 * 60 < telegram_data.auth_date ∧ telegram_data.auth_date < now + 5 * 60 then
    evaluated_hash == received_hash
  else
    false

/-- C1: the widget verifier returns true iff the recomputed HMAC-SHA256 digest
(keyed by the SHA-256 of the bot secret) equals the supplied signature AND the
timestamp lies strictly within the fixed 5-minute window around now; any
payload failing either check gets false. -/
theorem validate_widget_hash_iff (hmacSha256Hex : List Nat → List Nat → String)
    (sha256 : List Nat → List Nat) (bot_token : List Nat) (now : Int)
    (telegram_data : TelegramWidgetData) :
    validate_widget_hash hmacSha256Hex sha256 bot_token now telegram_data = true ↔
      (hmacSha256Hex (sha256 bot_token) telegram_data.encoded = telegram_data.hash ∧
        now - 5 * 60 < telegram_data.auth_date ∧
        telegram_data.auth_date < now + 5 * 60) := by
  unfold validate_widget_hash _get_secret_key
  by_cases hdate : now - 5 * 60 < telegram_data.auth_date ∧
      telegram_data.auth_date < now + 5 * 60
  · simp [hdate, beq_iff_eq]
    tauto
  · simp [hdate]
    tauto

/-- Response body of `POST /telegram/login`. -/
structure TelegramLoginResponse where
  need_to_connect : Bool
deriving DecidableEq

/-- A local user record as the routes see it: `str(user.id)` is all they use. -/
structure UserT where
  id : String
deriving DecidableEq

/-- `telegram_login` (telegram/routes.py lines 65-81). The user repository's
`read_by_telegram_id` enters as the parameter `read_by_telegram_id`; `user_id`
is the optional authenticated uid resolved by `OptionalUserIdDep`. Returns the
response together with the resulting session, or the raised exception. The
linking lines in the unknown-subject-with-session branch are commented out in
the source, so that branch performs no mutation. -/
def telegram_login (hmacSha256Hex : List Nat → List Nat → String)
    (sha256 : List Nat → List Nat) (bot_token : List Nat) (now : Int)
    (read_by_telegram_id : Nat → Option UserT)
    (telegram_data : TelegramWidgetData) (user_id : Option String)
    (session : Session) : Except AuthException (TelegramLoginResponse × Session) :=
  if ¬ validate_widget_hash hmacSha256Hex sha256 bot_token now telegram_data then
    .error .invalidTelegramWidgetHash
  else
    let user_by_telegram_id := read_by_telegram_id telegram_data.id
    if user_by_telegram_id = none ∧ user_id ≠ none then
      .ok (⟨true⟩, session)
    else if user_by_telegram_id = none then
      .error .userWithoutSessionException
    else
      match user_by_telegram_id with
      | some u => .ok (⟨false⟩, { session.clear with uid := some u.id })
      | none => .error .userWithoutSessionException

/-- C3: under a valid widget signature, a known external subject yields a
cleared session re-bound to that subject's local user id (whatever the prior
session held); an unknown subject with an authenticated caller yields
`need_to_connect = true` with the session untouched; an unknown subject
without a session raises (the code's `UserWithoutSessionException`, the
failure the spec calls no-identity-found here). -/
theorem telegram_login_cases (hmacSha256Hex : List Nat → List Nat → String)
    (sha256 : List Nat → List Nat) (bot_token : List Nat) (now : Int)
    (read_by_telegram_id : Nat → Option UserT)
    (telegram_data : TelegramWidgetData) (user_id : Option String)
    (session : Session)
    (hsig : validate_widget_hash hmacSha256Hex sha256 bot_token now telegram_data = true) :
    (∀ u, read_by_telegram_id telegram_data.id = some u →
      telegram_login hmacSha256Hex sha256 bot_token now read_by_telegram_id
          telegram_data user_id session =
        .ok (⟨false⟩, ⟨some u.id, none, none⟩)) ∧
    (read_by_telegram_id telegram_data.id = none → user_id ≠ none →
      telegram_login hmacSha256Hex sha256 bot_token now read_by_telegram_id
          telegram_data user_id session = .ok (⟨true⟩, session)) ∧
    (read_by_telegram_id telegram_data.id = none → user_id = none →
      telegram_login hmacSha256Hex sha256 bot_token now read_by_telegram_id
          telegram_data user_id session = .error .userWithoutSessionException) := by
  refine ⟨?_, ?_, ?_⟩
  · intro u hu
    unfold telegram_login
    simp [hsig, hu, Session.clear]
  · intro hnone hsome
    unfold telegram_login
    simp [hsig, hnone, hsome]
  · intro hnone hid
    unfold telegram_login
    simp [hsig, hnone, hid]

/-- Witness for C3 at a concrete input: a concrete digest function, a known
subject, and a stale prior session; the signature hypothesis is discharged by
evaluation. -/
theorem telegram_login_cases_witness :
    telegram_login (fun _ _ => "sig") (fun k => k) [7] 0
        (fun i => if i = 99 then some ⟨"user-1"⟩ else none)
        ⟨99, 10, "sig", [1, 2]⟩ (some "old-uid")
        ⟨some "old-uid", some "/stale", some "none"⟩ =
      .ok (⟨false⟩, ⟨some "user-1", none, none⟩) :=
  (telegram_login_cases (fun _ _ => "sig") (fun k => k) [7] 0
      (fun i => if i = 99 then some ⟨"user-1"⟩ else none)
      ⟨99, 10, "sig", [1, 2]⟩ (some "old-uid")
      ⟨some "old-uid", some "/stale", some "none"⟩ (by decide)).1 ⟨"user-1"⟩ (by decide)

/-- The claims extracted by `UserInfoFromSSO.from_token_and_userinfo`; the
routes only hand them to the user repository, so the content stays abstract. -/
structure UserInfoFromSSO where
  subject : String
deriving DecidableEq

/-- `recover_mismatching_state` (innopolis/routes.py lines 79-101): dispatch on
the session's `uid` and the truthiness of its `redirect_uri`; a known
`redirect_uri` is re-validated through `ensure_allowed_redirect_uri`, which may
raise. `web_url` is `settings.web_url`; `login_url_with` models
`request.url_for("innopolis_login_or_register").include_query_params(...)`. -/
def recover_mismatching_state (parseURL : String → ParseResult)
    (allowed_domains : List String) (web_url : String)
    (login_url_with : String → String) (session : Session) :
    Except AuthException Response :=
  let redirect_uri := session.redirect_uri
  let user_id := session.uid
  if user_id ≠ none then
    if truthyOptStr redirect_uri then
      match ensure_allowed_redirect_uri parseURL allowed_domains (redirect_uri.getD "") with
      | .error e => .error e
      | .ok _ => .ok (.redirect (redirect_uri.getD "") 302)
    else
      .ok (.redirect web_url 302)
  else
    if truthyOptStr redirect_uri then
      match ensure_allowed_redirect_uri parseURL allowed_domains (redirect_uri.getD "") with
      | .error e => .error e
      | .ok _ => .ok (.redirect (login_url_with (redirect_uri.getD "")) 302)
    else
      .ok (.redirect web_url 302)

/-- `innopolis_callback` (innopolis/routes.py lines 47-77). Query parameters
`q_error`/`q_description` model `request.query_params.get(...)`; the outcome of
`oauth.innopolis.authorize_access_token` enters as `exchange` (an `OAuthError`
or the extracted userinfo), and
`user_repository.register_or_update_via_innopolis_sso` as `register`. Returns
the response together with the resulting session, or the raised exception. -/
def innopolis_callback (parseURL : String → ParseResult)
    (allowed_domains : List String) (web_url : String)
    (login_url_with : String → String)
    (exchange : Except Unit UserInfoFromSSO) (register : UserInfoFromSSO → UserT)
    (q_error : Option String) (q_description : Option String)
    (session : Session) : Except AuthException (Response × Session) :=
  if truthyOptStr q_error then
    let error := q_error.getD ""
    let description := q_description
    let prompt := session.prompt
    if prompt = some "none" then
      match session.pop_redirect_uri with
      | .error e => .error e
      | .ok (redirect_uri, s1) =>
          match ensure_allowed_redirect_uri parseURL allowed_domains redirect_uri with
          | .error e => .error e
          | .ok _ => .ok (.redirect redirect_uri 302, s1.clear)
    else
      .ok (.jsonError 403 error description, session)
  else
    match exchange with
    | .error _ =>
        match recover_mismatching_state parseURL allowed_domains web_url login_url_with session with
        | .error e => .error e
        | .ok resp => .ok (resp, session)
    | .ok user_info =>
        let user := register user_info
        match session.pop_redirect_uri with
        | .error e => .error e
        | .ok (redirect_uri, s1) =>
            match ensure_allowed_redirect_uri parseURL allowed_domains redirect_uri with
            | .error e => .error e
            | .ok _ => .ok (.redirect redirect_uri 302, { s1.clear with uid := some user.id })

/-- Helper: when the session's stored `redirect_uri`, whenever truthy, passes
the Redirect Guard, the recovery function reduces to the four-way dispatch on
`uid` and `redirect_uri`. Shared by the C4 and C5 developments. -/
theorem recover_mismatching_state_eq_of_guard (parseURL : String → ParseResult)
    (allowed_domains : List String) (web_url : String)
    (login_url_with : String → String) (session : Session)
    (hguard : ∀ r, session.redirect_uri = some r → r ≠ "" →
      ensure_allowed_redirect_uri parseURL allowed_domains r = .ok ()) :
    recover_mismatching_state parseURL allowed_domains web_url login_url_with session =
      .ok (.redirect
        (if session.uid ≠ none then
          (if truthyOptStr session.redirect_uri then session.redirect_uri.getD ""
           else web_url)
         else
          (if truthyOptStr session.redirect_uri then
            login_url_with (session.redirect_uri.getD "")
           else web_url)) 302) := by
  unfold recover_mismatching_state
  by_cases huid : session.uid = none
  · rcases hs : session.redirect_uri with _ | r
    · simp [huid, hs, truthyOptStr]
    · by_cases hr : r = ""
      · simp [huid, hs, hr, truthyOptStr]
      · have hg := hguard r hs hr
        simp [huid, hs, hr, truthyOptStr, hg]
  · rcases hs : session.redirect_uri with _ | r
    · simp [huid, hs, truthyOptStr]
    · by_cases hr : r = ""
      · simp [huid, hs, hr, truthyOptStr]
      · have hg := hguard r hs hr
        simp [huid, hs, hr, truthyOptStr, hg]

/-- C4 counterexample: a session with `uid` set and a stored `redirect_uri`
whose host is off the allow-list makes the recovery function raise
`InvalidReturnToURL` — it produces none of the four redirects the claim lists. -/
theorem recover_mismatching_state_c4_counterexample :
    recover_mismatching_state
        (fun u => if u = "https://evil.example/" then ParseResult.parsed (some "evil.example")
                  else ParseResult.parsed none)
        ["innohassle.ru"] "https://innohassle.ru/" (fun r => r)
        ⟨some "42", some "https://evil.example/", none⟩ =
      .error .invalidReturnToURL := rfl

/-- C4 (amended): provided the stored `redirect_uri`, when truthy, passes the
Redirect Guard, the recovery function produces exactly the four-case redirect
dispatch: (a) uid and redirect_uri → that uri; (b) uid only → the default
landing page; (c) redirect_uri only → the login entry point carrying it; (d)
neither → the default landing page. -/
theorem recover_mismatching_state_four_cases (parseURL : String → ParseResult)
    (allowed_domains : List String) (web_url : String)
    (login_url_with : String → String) (session : Session)
    (hguard : ∀ r, session.redirect_uri = some r → r ≠ "" →
      ensure_allowed_redirect_uri parseURL allowed_domains r = .ok ()) :
    recover_mismatching_state parseURL allowed_domains web_url login_url_with session =
      .ok (.redirect
        (if session.uid ≠ none then
          (if truthyOptStr session.redirect_uri then session.redirect_uri.getD ""
           else web_url)
         else
          (if truthyOptStr session.redirect_uri then
            login_url_with (session.redirect_uri.getD "")
           else web_url)) 302) :=
  recover_mismatching_state_eq_of_guard parseURL allowed_domains web_url
    login_url_with session hguard

/-- Witness for the amended C4: case (a) at a concrete session whose stored
`redirect_uri` passes the guard. -/
theorem recover_mismatching_state_four_cases_witness :
    recover_mismatching_state (fun _ => ParseResult.parsed (some "innohassle.ru"))
        ["innohassle.ru"] "https://home/" (fun r => r)
        ⟨some "42", some "https://innohassle.ru/x", none⟩ =
      .ok (.redirect "https://innohassle.ru/x" 302) :=
  (recover_mismatching_state_four_cases (fun _ => ParseResult.parsed (some "innohassle.ru"))
      ["innohassle.ru"] "https://home/" (fun r => r)
      ⟨some "42", some "https://innohassle.ru/x", none⟩
      (fun r hr _ => by
        have hr' : "https://innohassle.ru/x" = r := by simpa using hr
        subst hr'
        rfl)).trans rfl

/-- C5 counterexample: a session without `uid` but with a stored off-list
`redirect_uri` makes the recovery function raise `InvalidReturnToURL` to the
user instead of redirecting. -/
theorem recover_mismatching_state_c5_counterexample :
    recover_mismatching_state
        (fun u => if u = "https://phish.example/" then ParseResult.parsed (some "phish.example")
                  else ParseResult.parsed none)
        ["innohassle.ru"] "https://home/" (fun r => r)
        ⟨none, some "https://phish.example/", none⟩ =
      .error .invalidReturnToURL := rfl

/-- C5 (amended): for every session whose stored `redirect_uri`, when truthy,
passes the Redirect Guard, the recovery function returns a 302 redirect and
raises no error; when the stored `redirect_uri` fails the guard it raises
`InvalidReturnToURL` instead (see the counterexample). -/
theorem recover_mismatching_state_no_error (parseURL : String → ParseResult)
    (allowed_domains : List String) (web_url : String)
    (login_url_with : String → String) (session : Session)
    (hguard : ∀ r, session.redirect_uri = some r → r ≠ "" →
      ensure_allowed_redirect_uri parseURL allowed_domains r = .ok ()) :
    ∃ url, recover_mismatching_state parseURL allowed_domains web_url
        login_url_with session = .ok (.redirect url 302) :=
  ⟨_, recover_mismatching_state_eq_of_guard parseURL allowed_domains web_url
    login_url_with session hguard⟩

/-- Witness for the amended C5 at a concrete session holding an allow-listed
`redirect_uri`. -/
theorem recover_mismatching_state_no_error_witness :
    ∃ url, recover_mismatching_state (fun _ => ParseResult.parsed none)
        ["innohassle.ru"] "https://home/" (fun r => r)
        ⟨none, some "/dashboard", none⟩ = .ok (.redirect url 302) :=
  recover_mismatching_state_no_error (fun _ => ParseResult.parsed none)
    ["innohassle.ru"] "https://home/" (fun r => r)
    ⟨none, some "/dashboard", none⟩
    (fun r hr _ => by
      have hr' : "/dashboard" = r := by simpa using hr
      subst hr'
      rfl)

/-- C6 counterexample: a callback carrying an explicit provider error with a
prompt other than "none" completes with the 403 JSON body while the session —
its `redirect_uri` key included — is returned untouched. -/
theorem innopolis_callback_c6_counterexample :
    innopolis_callback (fun _ => ParseResult.parsed none) [] "https://home/"
        (fun r => r) (.error ()) (fun _ => ⟨"u"⟩)
        (some "server_error") none ⟨none, some "/dashboard", none⟩ =
      .ok (.jsonError 403 "server_error" none, ⟨none, some "/dashboard", none⟩) := rfl

/-- C6 (amended): a completed callback either clears both transient keys
(successful exchange, or explicit error during a prompt = "none" probe) or
returns the session entirely unchanged (explicit error otherwise, and every
state-mismatch recovery outcome). -/
theorem innopolis_callback_transient_keys (parseURL : String → ParseResult)
    (allowed_domains : List String) (web_url : String)
    (login_url_with : String → String)
    (exchange : Except Unit UserInfoFromSSO) (register : UserInfoFromSSO → UserT)
    (q_error : Option String) (q_description : Option String)
    (session : Session) (resp : Response) (s' : Session)
    (h : innopolis_callback parseURL allowed_domains web_url login_url_with
      exchange register q_error q_description session = .ok (resp, s')) :
    (s'.redirect_uri = none ∧ s'.prompt = none) ∨ s' = session := by
  dsimp only [innopolis_callback] at h
  split at h
  · split at h
    · split at h
      · cases h
      · split at h
        · cases h
        · cases h
          exact Or.inl ⟨rfl, rfl⟩
    · cases h
      exact Or.inr rfl
  · split at h
    · split at h
      · cases h
      · cases h
        exact Or.inr rfl
    · split at h
      · cases h
      · split at h
        · cases h
        · cases h
          exact Or.inl ⟨rfl, rfl⟩

/-- Witness for the amended C6 at a concrete successful-exchange callback. -/
theorem innopolis_callback_transient_keys_witness :
    (Session.redirect_uri ⟨some "7", none, none⟩ = none ∧
        Session.prompt ⟨some "7", none, none⟩ = none) ∨
      (⟨some "7", none, none⟩ : Session) = ⟨none, some "/d", some "none"⟩ :=
  innopolis_callback_transient_keys (fun _ => ParseResult.parsed none) []
    "https://home/" (fun r => r) (.ok ⟨"sub"⟩) (fun _ => ⟨"7"⟩)
    none none ⟨none, some "/d", some "none"⟩ (.redirect "/d" 302)
    ⟨some "7", none, none⟩ rfl

/-- C7 counterexample: an explicit provider error during a prompt = "none"
probe whose stored `redirect_uri` is off the allow-list makes the handler
raise `InvalidReturnToURL` instead of redirecting. -/
theorem innopolis_callback_c7_counterexample :
    innopolis_callback
        (fun u => if u = "https://phish.example/" then ParseResult.parsed (some "phish.example")
                  else ParseResult.parsed none)
        ["innohassle.ru"] "https://home/" (fun r => r) (.error ()) (fun _ => ⟨"u"⟩)
        (some "access_denied") (some "denied")
        ⟨none, some "https://phish.example/", some "none"⟩ =
      .error .invalidReturnToURL := rfl

/-- C7 (amended): on a callback carrying an explicit provider error, when the
session stores a guard-passing `redirect_uri` whenever its prompt is "none":
prompt = "none" yields a 302 redirect to the stored `redirect_uri` with the
session cleared and no surfaced error; any other prompt yields the JSON body
with the error and description at status 403, the session unchanged. -/
theorem innopolis_callback_error_branch (parseURL : String → ParseResult)
    (allowed_domains : List String) (web_url : String)
    (login_url_with : String → String)
    (exchange : Except Unit UserInfoFromSSO) (register : UserInfoFromSSO → UserT)
    (q_error : Option String) (q_description : Option String) (session : Session)
    (hqe : truthyOptStr q_error = true)
    (hguard : ∀ r, session.redirect_uri = some r →
      ensure_allowed_redirect_uri parseURL allowed_domains r = .ok ())
    (hpresent : session.prompt = some "none" → session.redirect_uri.isSome) :
    innopolis_callback parseURL allowed_domains web_url login_url_with
        exchange register q_error q_description session =
      if session.prompt = some "none" then
        .ok (.redirect (session.redirect_uri.getD "") 302, ⟨none, none, none⟩)
      else
        .ok (.jsonError 403 (q_error.getD "") q_description, session) := by
  dsimp only [innopolis_callback]
  rw [if_pos hqe]
  by_cases hp : session.prompt = some "none"
  · rcases hs : session.redirect_uri with _ | r
    · rw [hs] at hpresent
      simp [hp] at hpresent
    · have hg := hguard r hs
      simp [hp, hs, Session.pop_redirect_uri, hg, Session.clear]
  · simp [hp]

/-- Witness for the amended C7: the prompt = "none" branch at a concrete
session holding an allow-listed `redirect_uri`. -/
theorem innopolis_callback_error_branch_witness :
    innopolis_callback (fun _ => ParseResult.parsed none) ["innohassle.ru"]
        "https://home/" (fun r => r) (.error ()) (fun _ => ⟨"u"⟩)
        (some "access_denied") (some "denied")
        ⟨none, some "/d", some "none"⟩ =
      if Session.prompt ⟨none, some "/d", some "none"⟩ = some "none" then
        .ok (.redirect ((Session.redirect_uri ⟨none, some "/d", some "none"⟩).getD "") 302,
          ⟨none, none, none⟩)
      else
        .ok (.jsonError 403 ((some "access_denied").getD "") (some "denied"),
          ⟨none, some "/d", some "none"⟩) :=
  innopolis_callback_error_branch (fun _ => ParseResult.parsed none) ["innohassle.ru"]
    "https://home/" (fun r => r) (.error ()) (fun _ => ⟨"u"⟩)
    (some "access_denied") (some "denied") ⟨none, some "/d", some "none"⟩
    rfl
    (fun r hr => by
      have hr' : "/d" = r := by simpa using hr
      subst hr'
      rfl)
    (fun _ => rfl)

/-- C10: on both unguarded-pop paths — explicit provider error with
prompt = "none", and successful token exchange — a session lacking the
`redirect_uri` key makes the handler raise `KeyError("redirect_uri")`. -/
theorem innopolis_callback_keyerror_on_missing_redirect_uri
    (parseURL : String → ParseResult) (allowed_domains : List String)
    (web_url : String) (login_url_with : String → String)
    (exchange : Except Unit UserInfoFromSSO) (register : UserInfoFromSSO → UserT)
    (q_error : Option String) (q_description : Option String) (session : Session)
    (hnr : session.redirect_uri = none)
    (hpath : (truthyOptStr q_error = true ∧ session.prompt = some "none") ∨
      (truthyOptStr q_error = false ∧ ∃ ui, exchange = .ok ui)) :
    innopolis_callback parseURL allowed_domains web_url login_url_with
        exchange register q_error q_description session =
      .error (.keyError "redirect_uri") := by
  dsimp only [innopolis_callback]
  rcases hpath with ⟨hqe, hp⟩ | ⟨hqe, ui, hex⟩
  · rw [if_pos hqe]
    simp [hp, Session.pop_redirect_uri, hnr]
  · rw [if_neg (by simp [hqe])]
    rw [hex]
    simp [Session.pop_redirect_uri, hnr]

/-- Witness for C10: the error-with-prompt-"none" path at a concrete session
missing `redirect_uri`. -/
theorem innopolis_callback_keyerror_witness :
    innopolis_callback (fun _ => ParseResult.parsed none) [] "https://home/"
        (fun r => r) (.error ()) (fun _ => ⟨"u"⟩)
        (some "access_denied") none ⟨none, none, some "none"⟩ =
      .error (.keyError "redirect_uri") :=
  innopolis_callback_keyerror_on_missing_redirect_uri
    (fun _ => ParseResult.parsed none) [] "https://home/" (fun r => r)
    (.error ()) (fun _ => ⟨"u"⟩) (some "access_denied") none
    ⟨none, none, some "none"⟩ rfl (Or.inl ⟨rfl, rfl⟩)

/-- Modelled from the spec: the status tags of an email verification flow
(`EmailFlowVerificationStatus`, defined in the email-flow repository module,
which is not part of the sources here); the spec's taxonomy lists success,
flow-not-found, flow-expired, flow-wrong-code and flow-already-consumed. -/
inductive EmailFlowVerificationStatus where
  | success
  | not_found
  | expired
  | incorrect
  | already_consumed
deriving DecidableEq

/-- An email flow as the route reads it: its identifier and target email. -/
structure EmailFlowT where
  id : Nat
  email : String
deriving DecidableEq

/-- Result of `email_flow_repository.verify_flow`: the final status together
with the flow record whose `email` and `id` the route reads on success. -/
structure VerificationResult where
  status : EmailFlowVerificationStatus
  email_flow : EmailFlowT
deriving DecidableEq

/-- Response body of `POST /email/validate-code-for-users`
(email/routes.py lines 21-24): optional fields default to `None`. -/
structure EmailFlowResult where
  status : EmailFlowVerificationStatus
  email : Option String
  email_verification_token : Option String
deriving DecidableEq

/-- `_validate_code_route` (email/routes.py lines 47-63). The repository's
`verify_flow` and `TokenRepository.create_email_flow_token` are collaborators
and enter as parameters. -/
def _validate_code_route
    (verify_flow : Nat → String → Option String → Option String → VerificationResult)
    (create_email_flow_token : Nat → String)
    (email_flow_id : Nat) (verification_code : String)
    (user_id : Option String) (client_id : Option String) : EmailFlowResult :=
  let verification_result := verify_flow email_flow_id verification_code user_id client_id
  if verification_result.status = .success then
    ⟨verification_result.status, some verification_result.email_flow.email,
      some (create_email_flow_token verification_result.email_flow.id)⟩
  else
    ⟨verification_result.status, none, none⟩

/-- C8: the route's result carries the flow's final status, and the email and
verification-token fields are populated exactly when that status is success —
the email then being the flow's email; on every other status both optional
fields are absent. -/
theorem _validate_code_route_shape
    (verify_flow : Nat → String → Option String → Option String → VerificationResult)
    (create_email_flow_token : Nat → String)
    (email_flow_id : Nat) (verification_code : String)
    (user_id : Option String) (client_id : Option String) :
    (_validate_code_route verify_flow create_email_flow_token email_flow_id
        verification_code user_id client_id).status =
      (verify_flow email_flow_id verification_code user_id client_id).status ∧
    ((_validate_code_route verify_flow create_email_flow_token email_flow_id
        verification_code user_id client_id).email.isSome ↔
      (verify_flow email_flow_id verification_code user_id client_id).status = .success) ∧
    ((_validate_code_route verify_flow create_email_flow_token email_flow_id
        verification_code user_id client_id).email_verification_token.isSome ↔
      (verify_flow email_flow_id verification_code user_id client_id).status = .success) ∧
    (_validate_code_route verify_flow create_email_flow_token email_flow_id
        verification_code user_id client_id).email =
      (if (verify_flow email_flow_id verification_code user_id client_id).status = .success
       then some (verify_flow email_flow_id verification_code user_id client_id).email_flow.email
       else none) := by
  unfold _validate_code_route
  by_cases hst : (verify_flow email_flow_id verification_code user_id client_id).status =
      .success
  · simp [hst]
  · simp [hst]

/-- A Python coroutine object: what a call to an `async def` function returns
when the caller forgets to `await` it. The wrapped value is what awaiting
would have produced; the object itself is what the caller actually holds. -/
structure Coroutine (α : Type) where
  awaited : α
deriving DecidableEq

/-- Python truthiness of a coroutine object: objects are truthy, so the test
`if not coroutine:` is always false no matter what awaiting would return. -/
def Coroutine.truthy {α : Type} (_ : Coroutine α) : Bool := true

/-- Modelled from the spec: `user_repository.exists(id)` (user repository
module, not part of the sources here) is a persistence read — per the spec an
awaitable suspension point, like every other `user_repository` call in the
sources, all of which are awaited — answering whether a user with that id
exists. Called without `await`, as in dependencies.py line 25, it yields the
coroutine object. -/
def user_repository_exists (users : List String) (uid : String) : Coroutine Bool :=
  ⟨users.contains uid⟩

/-- `_get_optional_uid_from_session` (api/dependencies.py lines 19-30): reads
`uid` from the session; on a present uid it computes
`exists = user_repository.exists(uid)` WITHOUT awaiting and tests
`if not exists:` on the coroutine object (clearing the session and raising
`UserWithoutSessionException` in that branch), then returns the uid. The
`PydanticObjectId` conversion is kept as the identity on the uid string. -/
def _get_optional_uid_from_session (users : List String) (request_session : Session) :
    Except AuthException (Option String × Session) :=
  match request_session.uid with
  | none => .ok (none, request_session)
  | some uid =>
      let exists_ := user_repository_exists users uid
      if ¬ exists_.truthy then
        .error .userWithoutSessionException
      else
        .ok (some uid, request_session)

/-- `_get_uid_from_session` (api/dependencies.py lines 12-16): the required
variant — a `None` uid becomes `UserWithoutSessionException`. -/
def _get_uid_from_session (users : List String) (request_session : Session) :
    Except AuthException (String × Session) :=
  match _get_optional_uid_from_session users request_session with
  | .error e => .error e
  | .ok (none, _) => .error .userWithoutSessionException
  | .ok (some uid, s) => .ok (uid, s)

/-- C9 at the failing input: with an empty user repository and a session
holding a stale uid, the optional dependency returns the uid with the session
untouched and the required dependency accepts it as well — the unawaited
`user_repository.exists` call leaves a truthy coroutine object, so the
clear-session-and-raise branch is unreachable. -/
theorem _get_uid_from_session_stale_uid_passes :
    _get_optional_uid_from_session [] ⟨some "507f1f77bcf86cd799439011", none, none⟩ =
      .ok (some "507f1f77bcf86cd799439011",
        ⟨some "507f1f77bcf86cd799439011", none, none⟩) ∧
    _get_uid_from_session [] ⟨some "507f1f77bcf86cd799439011", none, none⟩ =
      .ok ("507f1f77bcf86cd799439011",
        ⟨some "507f1f77bcf86cd799439011", none, none⟩) :=
  ⟨rfl, rfl⟩
